import Mathlib

/-!
Shallow embedding of `servo/components/style/values/generics/grid.rs`
(generic types for CSS grid track sizing): the `<grid-line>` value with its
parser and serializer, `<track-breadth>`/`<track-size>` with `is_fixed` and
serialization, `RepeatCount`, `TrackRepeat`, `NameRepeat` and `TrackList`
serialization.

The low-level CSS tokenizer is external to the code under study; parsing is
therefore embedded at the level of component tokens.  Machine integers of
the source (`i32` inside `specified::Integer`) are modelled as `Int`: every
integer the code constructs is clamped into `[-10000, 10000]`, far from any
`i32` overflow, so the model is exact.
-/

/-- A CSS component token, as seen by the grid parsers.  Only identifier and
integer tokens can ever be consumed by the code under study; `other` stands
for any further token kind, which every match in the parser rejects
(a failed `try_parse` rolls the cursor back). -/
inductive Token where
  | ident (s : String)
  | num (n : Int)
  | other
  deriving DecidableEq, Repr

/-- ASCII lowercasing of a character, as in Rust's `eq_ignore_ascii_case`. -/
def asciiLowerChar (c : Char) : Char :=
  if 65 ≤ c.toNat ∧ c.toNat ≤ 90 then Char.ofNat (c.toNat + 32) else c

/-- ASCII lowercasing of a string: keyword matching in the source
(`expect_ident_matching`, `try_match_ident_ignore_ascii_case`, the excluded
list of `CustomIdent::parse`) is ASCII-case-insensitive. -/
def asciiLower (s : String) : String :=
  String.mk (s.data.map asciiLowerChar)

/-- Constant `MIN_GRID_LINE` from grid.rs: lower clamp bound for grid line numbers. -/
def MIN_GRID_LINE : Int := -10000

/-- Constant `MAX_GRID_LINE` from grid.rs: upper clamp bound for grid line numbers. -/
def MAX_GRID_LINE : Int := 10000

/-- Structure `GenericGridLine<Integer>` from grid.rs, at the specified-value
instantiation (`Integer` = `specified::Integer`, a wrapped `i32`; `ident` is
a `CustomIdent` atom, the empty string standing for the empty atom). -/
structure GridLine where
  ident : String
  line_num : Int
  is_span : Bool
  deriving DecidableEq, Repr

/-- Function `GridLine::auto()`: the `auto` value (empty ident, zero line number, no
span flag). -/
def GridLine.auto : GridLine :=
  { ident := "", line_num := 0, is_span := false }

/-- Predicate `GridLine::is_auto`. -/
def GridLine.is_auto (g : GridLine) : Bool :=
  g.ident == "" && g.line_num == 0 && !g.is_span

/-- Predicate `GridLine::is_ident_only`. -/
def GridLine.is_ident_only (g : GridLine) : Bool :=
  g.ident != "" && g.line_num == 0 && !g.is_span

/-- The clamp `cmp::max(MIN_GRID_LINE, cmp::min(value, MAX_GRID_LINE))`
applied by the integer branch of `GridLine::parse`. -/
def clampLine (n : Int) : Int :=
  max MIN_GRID_LINE (min n MAX_GRID_LINE)

/-- One iteration of the `for _ in 0..3` loop body of
`GridLine::parse`: given the grid line built so far, the `val_before_span`
flag and the next token, either fail (`error`), consume the token and update
the state (`ok (some _)`), or leave the token unconsumed and break out of
the loop (`ok none`).

Modelled from the spec where the callee is outside the studied file:
`expect_ident_matching` matches an identifier ASCII-case-insensitively;
`specified::Integer::parse` consumes an integer token;
`CustomIdent::parse(i, &["auto"])` consumes an identifier token other than
`auto` (case-insensitively); the `span` keyword is consumed by the earlier
branch, so the custom-ident branch never sees it. -/
def stepTok (g : GridLine) (v : Bool) : Token → Except Unit (Option (GridLine × Bool))
  | Token.ident s =>
    if asciiLower s = "span" then
      if g.is_span then Except.error ()
      else
        Except.ok (some ({ g with is_span := true },
          if ¬(g.line_num = 0) ∨ g.ident ≠ "" then true else v))
    else if asciiLower s = "auto" then
      -- `CustomIdent::parse` rejects `auto`; with all three alternatives
      -- failing, the loop breaks.
      Except.ok none
    else if v = true ∨ g.ident ≠ "" then Except.error ()
    else Except.ok (some ({ g with ident := s }, v))
  | Token.num n =>
    if n = 0 ∨ v = true ∨ ¬(g.line_num = 0) then Except.error ()
    else
      Except.ok (some ({ g with line_num := clampLine n }, v))
  | Token.other => Except.ok none

/-- The `for _ in 0..3` loop of `GridLine::parse`, with its fuel made
explicit.  Exhausting the input makes every `try_parse` fail, which breaks
the loop. -/
def parseLoop : Nat → GridLine → Bool → List Token → Except Unit (GridLine × List Token)
  | 0, g, _, ts => Except.ok (g, ts)
  | _ + 1, g, _, [] => Except.ok (g, [])
  | fuel + 1, g, v, t :: rest =>
    match stepTok g v t with
    | Except.error e => Except.error e
    | Except.ok none => Except.ok (g, t :: rest)
    | Except.ok (some (g', v')) => parseLoop fuel g' v' rest

/-- The post-loop validation of `GridLine::parse`: reject when nothing was
consumed (the value is still `auto`-shaped); when the span flag is set,
reject a non-positive line number, and reject a zero line number with an
empty ident. -/
def parseAfterLoop (g : GridLine) (rest : List Token) : Except Unit (GridLine × List Token) :=
  if g.is_auto then Except.error ()
  else if g.is_span then
    if ¬(g.line_num = 0) then
      if g.line_num ≤ 0 then Except.error () else Except.ok (g, rest)
    else if g.ident = "" then Except.error ()
    else Except.ok (g, rest)
  else Except.ok (g, rest)

/-- Helper `try_parse(|i| i.expect_ident_matching(kw))`: consume one identifier
token matching `kw` ASCII-case-insensitively, rolling back on failure. -/
def expectIdentMatching (kw : String) : List Token → Option (List Token)
  | Token.ident s :: rest => if asciiLower s = kw then some rest else none
  | _ => none

/-- The scan-and-validate part of `GridLine::parse` (everything after the
initial `auto` test): the three-iteration loop followed by the post-loop
validation. -/
def parseBody (ts : List Token) : Except Unit (GridLine × List Token) :=
  match parseLoop 3 GridLine.auto false ts with
  | Except.error e => Except.error e
  | Except.ok (g, r) => parseAfterLoop g r

/-- Function `<Parse for GridLine>::parse` over a token stream: an initial
`auto` keyword short-circuits; otherwise the three-iteration scan runs,
followed by the post-loop validation.  Returns the parsed value together
with the unconsumed remainder of the stream. -/
def GridLine.parse (ts : List Token) : Except Unit (GridLine × List Token) :=
  match expectIdentMatching ("auto") ts with
  | some rest => Except.ok (GridLine.auto, rest)
  | none => parseBody ts

/-- Function `<ToCss for GridLine>::to_css`, producing the serialized string.
Modelled from the spec for the callees outside the studied file:
`CustomIdent::to_css` writes the identifier itself and
`Integer::to_css` writes the decimal integer. -/
def GridLine.to_css (g : GridLine) : String :=
  if g.is_auto then "auto"
  else if g.is_ident_only then g.ident
  else if g.is_span then
    "span"
      ++ (if ¬(g.line_num = 0) ∧ ¬(g.line_num = 1 ∧ g.ident ≠ "") then
            " " ++ toString g.line_num
          else "")
      ++ (if g.ident ≠ "" then " " ++ g.ident else "")
  else
    toString g.line_num ++ (if g.ident ≠ "" then " " ++ g.ident else "")

/-- Serializer `GridLine::to_css` at the token level: the same branch structure as
`GridLine.to_css`, emitting the identifier / integer tokens it writes
instead of their rendered text (the serializer separates consecutive tokens
by single spaces, see `GridLine.to_css_eq_render_tokens`). -/
def GridLine.to_css_tokens (g : GridLine) : List Token :=
  if g.is_auto then [Token.ident ("auto")]
  else if g.is_ident_only then [Token.ident g.ident]
  else if g.is_span then
    Token.ident ("span")
      :: ((if ¬(g.line_num = 0) ∧ ¬(g.line_num = 1 ∧ g.ident ≠ "") then
            [Token.num g.line_num]
          else [])
        ++ (if g.ident ≠ "" then [Token.ident g.ident] else []))
  else
    Token.num g.line_num :: (if g.ident ≠ "" then [Token.ident g.ident] else [])

/-- Rendering of one token back to text. -/
def Token.render : Token → String
  | Token.ident s => s
  | Token.num n => toString n
  | Token.other => ""

/-- Rendering of a token list: the tokens' text joined by single spaces. -/
def renderTokens : List Token → String
  | [] => ""
  | [t] => t.render
  | t :: t2 :: rest => t.render ++ " " ++ renderTokens (t2 :: rest)

/-- The string serializer agrees with the token-level serializer: the output
of `GridLine::to_css` is exactly the emitted tokens joined by single
spaces. -/
theorem GridLine.to_css_eq_render_tokens (g : GridLine) :
    g.to_css = renderTokens g.to_css_tokens := by
  unfold GridLine.to_css GridLine.to_css_tokens
  split_ifs <;>
    simp_all [renderTokens, Token.render, ← String.append_assoc]


theorem clampLine_mem (n : Int) :
    MIN_GRID_LINE ≤ clampLine n ∧ clampLine n ≤ MAX_GRID_LINE := by
  unfold clampLine MIN_GRID_LINE MAX_GRID_LINE
  omega

theorem clampLine_eq {n : Int} (hlo : MIN_GRID_LINE ≤ n) (hhi : n ≤ MAX_GRID_LINE) :
    clampLine n = n := by
  unfold clampLine MIN_GRID_LINE MAX_GRID_LINE at *
  omega

/-- Identifiers reachable as the `ident` field of a parsed grid line: the
empty atom, or a custom identifier that matched neither the `span` nor the
`auto` keyword. -/
def identOk (s : String) : Prop :=
  s = "" ∨ (asciiLower s ≠ "auto" ∧ asciiLower s ≠ "span")

/-- State invariant of the scanning loop of `GridLine::parse`. -/
def stateOk (g : GridLine) : Prop :=
  identOk g.ident ∧ MIN_GRID_LINE ≤ g.line_num ∧ g.line_num ≤ MAX_GRID_LINE

theorem stateOk_auto : stateOk GridLine.auto := by
  refine ⟨Or.inl rfl, ?_, ?_⟩ <;> simp [GridLine.auto, MIN_GRID_LINE, MAX_GRID_LINE]

theorem stepTok_stateOk {g : GridLine} {v : Bool} {t : Token} {g' : GridLine} {v' : Bool}
    (h0 : stateOk g) (h : stepTok g v t = Except.ok (some (g', v'))) : stateOk g' := by
  obtain ⟨hid, hlo, hhi⟩ := h0
  cases t with
  | ident s =>
    by_cases h1 : asciiLower s = "span"
    · by_cases h2 : g.is_span <;> simp [stepTok, h1, h2] at h
      obtain ⟨hg, _⟩ := h
      subst hg
      exact ⟨hid, hlo, hhi⟩
    · by_cases h2 : asciiLower s = "auto"
      · simp [stepTok, h1, h2] at h
      · by_cases h3 : v = true ∨ g.ident ≠ "" <;> simp [stepTok, h1, h2, h3] at h
        obtain ⟨hg, _⟩ := h
        subst hg
        exact ⟨Or.inr ⟨h2, h1⟩, hlo, hhi⟩
  | num n =>
    by_cases h1 : n = 0 ∨ v = true ∨ ¬(g.line_num = 0) <;> simp [stepTok, h1] at h
    obtain ⟨hg, _⟩ := h
    subst hg
    exact ⟨hid, (clampLine_mem n).1, (clampLine_mem n).2⟩
  | other => simp [stepTok] at h

theorem parseLoop_stateOk :
    ∀ (fuel : Nat) (g : GridLine) (v : Bool) (ts : List Token) (g' : GridLine)
      (rest : List Token), stateOk g →
      parseLoop fuel g v ts = Except.ok (g', rest) → stateOk g' := by
  intro fuel
  induction fuel with
  | zero =>
    intro g v ts g' rest h0 h
    simp [parseLoop] at h
    obtain ⟨h1, _⟩ := h
    subst h1
    exact h0
  | succ n ih =>
    intro g v ts g' rest h0 h
    cases ts with
    | nil =>
      simp [parseLoop] at h
      obtain ⟨h1, _⟩ := h
      subst h1
      exact h0
    | cons t r =>
      rw [parseLoop] at h
      cases hst : stepTok g v t with
      | error e => rw [hst] at h; cases h
      | ok o =>
        cases o with
        | none =>
          rw [hst] at h
          simp at h
          obtain ⟨h1, _⟩ := h
          subst h1
          exact h0
        | some p =>
          obtain ⟨g2, v2⟩ := p
          rw [hst] at h
          exact ih g2 v2 r g' rest (stepTok_stateOk h0 hst) h

theorem parseAfterLoop_ok {g : GridLine} {r : List Token} {g' : GridLine} {rest : List Token}
    (h : parseAfterLoop g r = Except.ok (g', rest)) :
    g' = g ∧ rest = r ∧ g.is_auto = false ∧
      (g.is_span = true → 0 < g.line_num ∨ (g.line_num = 0 ∧ g.ident ≠ "")) := by
  unfold parseAfterLoop at h
  by_cases h1 : g.is_auto
  · simp [h1] at h
  · by_cases h2 : g.is_span
    · by_cases h3 : ¬(g.line_num = 0)
      · by_cases h4 : g.line_num ≤ 0 <;> simp [h1, h2, h3, h4] at h
        obtain ⟨hg, hr⟩ := h
        exact ⟨hg.symm, hr.symm, by simpa using h1, fun _ => Or.inl (by omega)⟩
      · by_cases h4 : g.ident = "" <;> simp [h1, h2, h3, h4] at h
        obtain ⟨hg, hr⟩ := h
        refine ⟨hg.symm, hr.symm, by simpa using h1, fun _ => Or.inr ⟨by omega, h4⟩⟩
    · simp [h1, h2] at h
      obtain ⟨hg, hr⟩ := h
      refine ⟨hg.symm, hr.symm, by simpa using h1,
        fun hsp => by rw [hsp] at h2; simp at h2⟩

theorem parseBody_ok {ts : List Token} {g : GridLine} {rest : List Token}
    (h : parseBody ts = Except.ok (g, rest)) :
    stateOk g ∧ g.is_auto = false ∧
      (g.is_span = true → 0 < g.line_num ∨ (g.line_num = 0 ∧ g.ident ≠ "")) := by
  unfold parseBody at h
  cases hlp : parseLoop 3 GridLine.auto false ts with
  | error e => rw [hlp] at h; cases h
  | ok p =>
    obtain ⟨g1, r1⟩ := p
    rw [hlp] at h
    obtain ⟨hg, _, hna, hsp⟩ := parseAfterLoop_ok h
    subst hg
    exact ⟨parseLoop_stateOk 3 _ _ _ _ _ stateOk_auto hlp, hna, hsp⟩

/-- Every successful `GridLine::parse` lands in the invariant: the ident is
empty or a non-keyword, the line number is within the clamp bounds, the
result is `auto` or not `auto`-shaped, and a span carries a positive
integer or a non-empty ident. -/
theorem GridLine.parse_ok_props {ts : List Token} {g : GridLine} {rest : List Token}
    (h : GridLine.parse ts = Except.ok (g, rest)) :
    stateOk g ∧ (g = GridLine.auto ∨ g.is_auto = false) ∧
      (g.is_span = true → 0 < g.line_num ∨ (g.line_num = 0 ∧ g.ident ≠ "")) := by
  unfold GridLine.parse at h
  cases hm : expectIdentMatching ("auto") ts with
  | some r =>
    rw [hm] at h
    simp at h
    obtain ⟨hg, _⟩ := h
    subst hg
    refine ⟨stateOk_auto, Or.inl rfl, fun hsp => ?_⟩
    simp [GridLine.auto] at hsp
  | none =>
    rw [hm] at h
    obtain ⟨h1, h2, h3⟩ := parseBody_ok h
    exact ⟨h1, Or.inr h2, h3⟩

theorem parse_ident_only {s : String} (h0 : s ≠ "") (h1 : asciiLower s ≠ "auto")
    (h2 : asciiLower s ≠ "span") :
    GridLine.parse [Token.ident s] = Except.ok (⟨s, 0, false⟩, []) := by
  simp [GridLine.parse, expectIdentMatching, parseBody, parseLoop, stepTok, parseAfterLoop,
    GridLine.auto, GridLine.is_auto, h0, h1, h2]

theorem parse_num_only {n : Int} (h0 : ¬n = 0) (hlo : MIN_GRID_LINE ≤ n)
    (hhi : n ≤ MAX_GRID_LINE) :
    GridLine.parse [Token.num n] = Except.ok (⟨"", n, false⟩, []) := by
  simp [GridLine.parse, expectIdentMatching, parseBody, parseLoop, stepTok, parseAfterLoop,
    GridLine.auto, GridLine.is_auto, h0, clampLine_eq hlo hhi]

theorem parse_num_ident {n : Int} {s : String} (h0 : ¬n = 0) (hlo : MIN_GRID_LINE ≤ n)
    (hhi : n ≤ MAX_GRID_LINE) (hs0 : s ≠ "") (hs1 : asciiLower s ≠ "auto")
    (hs2 : asciiLower s ≠ "span") :
    GridLine.parse [Token.num n, Token.ident s] = Except.ok (⟨s, n, false⟩, []) := by
  simp [GridLine.parse, expectIdentMatching, parseBody, parseLoop, stepTok, parseAfterLoop,
    GridLine.auto, GridLine.is_auto, h0, hs0, hs1, hs2, clampLine_eq hlo hhi]

theorem parse_span_num {n : Int} (h0 : 0 < n) (hhi : n ≤ MAX_GRID_LINE) :
    GridLine.parse [Token.ident ("span"), Token.num n] = Except.ok (⟨"", n, true⟩, []) := by
  have hlo : MIN_GRID_LINE ≤ n := by unfold MIN_GRID_LINE; omega
  have hz : ¬n = 0 := by omega
  have hp : ¬n ≤ 0 := by omega
  simp [GridLine.parse, expectIdentMatching, parseBody, parseLoop, stepTok, parseAfterLoop,
    GridLine.auto, GridLine.is_auto, hz, hp, clampLine_eq hlo hhi,
    show asciiLower ("span") = "span" by rfl]

theorem parse_span_ident {s : String} (hs0 : s ≠ "") (hs1 : asciiLower s ≠ "auto")
    (hs2 : asciiLower s ≠ "span") :
    GridLine.parse [Token.ident ("span"), Token.ident s] =
      Except.ok (⟨s, 0, true⟩, []) := by
  simp [GridLine.parse, expectIdentMatching, parseBody, parseLoop, stepTok, parseAfterLoop,
    GridLine.auto, GridLine.is_auto, hs0, hs1, hs2,
    show asciiLower ("span") = "span" by rfl]

theorem parse_span_num_ident {n : Int} {s : String} (h0 : 0 < n) (hhi : n ≤ MAX_GRID_LINE)
    (hs1 : asciiLower s ≠ "auto") (hs2 : asciiLower s ≠ "span") :
    GridLine.parse [Token.ident ("span"), Token.num n, Token.ident s] =
      Except.ok (⟨s, n, true⟩, []) := by
  have hlo : MIN_GRID_LINE ≤ n := by unfold MIN_GRID_LINE; omega
  have hz : ¬n = 0 := by omega
  have hp : ¬n ≤ 0 := by omega
  simp [GridLine.parse, expectIdentMatching, parseBody, parseLoop, stepTok, parseAfterLoop,
    GridLine.auto, GridLine.is_auto, hz, hp, hs1, hs2, clampLine_eq hlo hhi,
    show asciiLower ("span") = "span" by rfl]

/-- Completeness of `GridLine::parse` on canonical serializations: any value
in the parser's range, except a span whose integer is exactly 1 next to a
non-empty ident, reparses from its own emitted tokens to itself, consuming
them all. -/
theorem parse_to_css_tokens (g : GridLine) (hok : stateOk g)
    (hna : g = GridLine.auto ∨ g.is_auto = false)
    (hspan : g.is_span = true → 0 < g.line_num ∨ (g.line_num = 0 ∧ g.ident ≠ ""))
    (hexc : ¬(g.is_span = true ∧ g.line_num = 1 ∧ g.ident ≠ "")) :
    GridLine.parse g.to_css_tokens = Except.ok (g, []) := by
  rcases hna with hna | hna
  · subst hna
    rfl
  · obtain ⟨hid, hlo, hhi⟩ := hok
    obtain ⟨i, n, sp⟩ := g
    simp only at hid hlo hhi
    cases sp with
    | true =>
      rcases hspan rfl with hpos | ⟨hn0, hi0⟩
      · simp only at hpos
        by_cases hi : i = ""
        · subst hi
          have hz : ¬n = 0 := by omega
          simp [GridLine.to_css_tokens, GridLine.is_auto, GridLine.is_ident_only, hz]
          exact parse_span_num hpos hhi
        · have h1 : ¬n = 1 := by
            intro h
            exact hexc ⟨rfl, by simpa using h, by simpa using hi⟩
          have hz : ¬n = 0 := by omega
          rcases hid with hid | ⟨ha, hsp2⟩
          · exact absurd hid hi
          · simp [GridLine.to_css_tokens, GridLine.is_auto, GridLine.is_ident_only, hz, h1, hi]
            exact parse_span_num_ident hpos hhi ha hsp2
      · simp only at hn0 hi0
        subst hn0
        rcases hid with hid | ⟨ha, hsp2⟩
        · exact absurd hid hi0
        · simp [GridLine.to_css_tokens, GridLine.is_auto, GridLine.is_ident_only, hi0]
          exact parse_span_ident hi0 ha hsp2
    | false =>
      simp only [GridLine.is_auto, Bool.not_false, Bool.and_true] at hna
      by_cases hn : n = 0
      · subst hn
        have hi : ¬i = "" := by
          intro h
          subst h
          simp at hna
        rcases hid with hid | ⟨ha, hsp2⟩
        · exact absurd hid hi
        · simp [GridLine.to_css_tokens, GridLine.is_auto, GridLine.is_ident_only, hi]
          exact parse_ident_only hi ha hsp2
      · by_cases hi : i = ""
        · subst hi
          simp [GridLine.to_css_tokens, GridLine.is_auto, GridLine.is_ident_only, hn]
          exact parse_num_only hn hlo hhi
        · rcases hid with hid | ⟨ha, hsp2⟩
          · exact absurd hid hi
          · simp [GridLine.to_css_tokens, GridLine.is_auto, GridLine.is_ident_only, hn, hi]
            exact parse_num_ident hn hlo hhi hi ha hsp2

/-- C1 counterexample: `span 1 foo` parses to a grid line with
`line_num = 1`, but its canonical serialization omits the default span
multiplier next to the ident, so reparsing the serialization yields
`line_num = 0`: `parse (serialize v) ≠ v` for this `v` in the range of
`parse`. -/
theorem c1_roundtrip_counterexample :
    GridLine.parse [Token.ident ("span"), Token.num 1, Token.ident ("foo")] =
      Except.ok ({ ident := "foo", line_num := 1, is_span := true }, []) ∧
    GridLine.to_css_tokens { ident := "foo", line_num := 1, is_span := true } =
      [Token.ident ("span"), Token.ident ("foo")] ∧
    GridLine.parse
        (GridLine.to_css_tokens { ident := "foo", line_num := 1, is_span := true }) =
      Except.ok (({ ident := "foo", line_num := 0, is_span := true } : GridLine), []) ∧
    ({ ident := "foo", line_num := 0, is_span := true } : GridLine) ≠
      { ident := "foo", line_num := 1, is_span := true } := by
  refine ⟨by rfl, by rfl, by rfl, by decide⟩

/-- C1 (amended): for every grid line returned by `GridLine::parse`, except
a span whose line number is exactly 1 paired with a non-empty ident (where
reparsing drops the default multiplier, yielding `line_num = 0`), parsing
the canonical serialization returns the value itself; and in every case
`serialize ∘ parse` is a fixed point of a second parse/serialize cycle. -/
theorem c1_roundtrip_amended {ts : List Token} {g : GridLine} {rest : List Token}
    (h : GridLine.parse ts = Except.ok (g, rest)) :
    (¬(g.is_span = true ∧ g.line_num = 1 ∧ g.ident ≠ "") →
        GridLine.parse g.to_css_tokens = Except.ok (g, [])) ∧
    (∃ g2 : GridLine, GridLine.parse g.to_css_tokens = Except.ok (g2, []) ∧
      g2.to_css_tokens = g.to_css_tokens ∧ g2.to_css = g.to_css) := by
  obtain ⟨hok, hna, hspan⟩ := GridLine.parse_ok_props h
  refine ⟨fun hexc => parse_to_css_tokens g hok hna hspan hexc, ?_⟩
  by_cases hexc : g.is_span = true ∧ g.line_num = 1 ∧ g.ident ≠ ""
  · obtain ⟨hsp, h1, hi⟩ := hexc
    obtain ⟨hid, _, _⟩ := hok
    obtain ⟨i, n, sp⟩ := g
    simp only at hsp h1 hi hid
    subst hsp
    subst h1
    rcases hid with hid | ⟨ha, hsp2⟩
    · exact absurd hid hi
    · have htok : GridLine.to_css_tokens ⟨i, 1, true⟩ =
          [Token.ident ("span"), Token.ident i] := by
        simp [GridLine.to_css_tokens, GridLine.is_auto, GridLine.is_ident_only, hi]
      have htok0 : GridLine.to_css_tokens ⟨i, 0, true⟩ =
          [Token.ident ("span"), Token.ident i] := by
        simp [GridLine.to_css_tokens, GridLine.is_auto, GridLine.is_ident_only, hi]
      refine ⟨⟨i, 0, true⟩, ?_, ?_, ?_⟩
      · rw [htok]
        exact parse_span_ident hi ha hsp2
      · rw [htok, htok0]
      · rw [GridLine.to_css_eq_render_tokens, GridLine.to_css_eq_render_tokens,
          htok, htok0]
  · exact ⟨g, parse_to_css_tokens g hok hna hspan hexc, rfl, rfl⟩

/-- Witness for `c1_roundtrip_amended` at the concrete input `span 2 foo`. -/
theorem c1_roundtrip_amended_witness :
    (¬(({ ident := "foo", line_num := 2, is_span := true } : GridLine).is_span = true ∧
        ({ ident := "foo", line_num := 2, is_span := true } : GridLine).line_num = 1 ∧
        ({ ident := "foo", line_num := 2, is_span := true } : GridLine).ident ≠ "") →
      GridLine.parse
          (GridLine.to_css_tokens { ident := "foo", line_num := 2, is_span := true }) =
        Except.ok (({ ident := "foo", line_num := 2, is_span := true } : GridLine), [])) ∧
    (∃ g2 : GridLine,
      GridLine.parse
          (GridLine.to_css_tokens { ident := "foo", line_num := 2, is_span := true }) =
        Except.ok (g2, []) ∧
      g2.to_css_tokens =
        GridLine.to_css_tokens { ident := "foo", line_num := 2, is_span := true } ∧
      g2.to_css = GridLine.to_css { ident := "foo", line_num := 2, is_span := true }) :=
  c1_roundtrip_amended
    (show GridLine.parse [Token.ident ("span"), Token.num 2, Token.ident ("foo")] =
      Except.ok ({ ident := "foo", line_num := 2, is_span := true }, []) by rfl)

/-- C2 counterexample: contrary to the claim, `GridLine::parse` applied to
the token sequence `2 span` does not fail: `span` is the last token, which
the `val_before_span` logic allows, and the parse succeeds with
`{is_span: true, line_num: 2, ident: ""}`. -/
theorem c2_two_span_counterexample :
    GridLine.parse [Token.num 2, Token.ident ("span")] =
      Except.ok ({ ident := "", line_num := 2, is_span := true }, []) ∧
    GridLine.parse [Token.num 2, Token.ident ("span")] ≠ Except.error () := by
  refine ⟨by rfl, ?_⟩
  intro hc
  simp [show GridLine.parse [Token.num 2, Token.ident ("span")] =
    Except.ok ({ ident := "", line_num := 2, is_span := true }, []) by rfl] at hc

/-- C2 (amended): `span 2 foo` parses to
`{is_span: true, line_num: 2, ident: "foo"}`; `2 span` also succeeds (span
is the last token), yielding `{is_span: true, line_num: 2, ident: ""}`;
only a `span` strictly between two other values, as in `2 span foo` or
`foo span 2`, makes the following value's branch fail via
`val_before_span`. -/
theorem c2_amended :
    GridLine.parse [Token.ident ("span"), Token.num 2, Token.ident ("foo")] =
      Except.ok ({ ident := "foo", line_num := 2, is_span := true }, []) ∧
    GridLine.parse [Token.num 2, Token.ident ("span")] =
      Except.ok ({ ident := "", line_num := 2, is_span := true }, []) ∧
    GridLine.parse [Token.num 2, Token.ident ("span"), Token.ident ("foo")] =
      Except.error () ∧
    GridLine.parse [Token.ident ("foo"), Token.ident ("span"), Token.num 2] =
      Except.error () := by
  refine ⟨by rfl, by rfl, by rfl, by rfl⟩

/-- C3: integer grid lines are clamped into `[-10000, 10000]` at parse
time: `99999` parses to `line_num = 10000`, `-99999` to `-10000`; any
non-zero integer token parses successfully, only capped, never rejected for
magnitude; and every successful parse has its line number within the clamp
bounds. -/
theorem c3_clamping :
    GridLine.parse [Token.num 99999] =
      Except.ok ({ ident := "", line_num := 10000, is_span := false }, []) ∧
    GridLine.parse [Token.num (-99999)] =
      Except.ok ({ ident := "", line_num := -10000, is_span := false }, []) ∧
    (∀ n : Int, ¬n = 0 →
      GridLine.parse [Token.num n] =
        Except.ok ({ ident := "", line_num := clampLine n, is_span := false }, [])) ∧
    (∀ (ts : List Token) (g : GridLine) (rest : List Token),
      GridLine.parse ts = Except.ok (g, rest) →
      MIN_GRID_LINE ≤ g.line_num ∧ g.line_num ≤ MAX_GRID_LINE) := by
  refine ⟨by rfl, by rfl, ?_, ?_⟩
  · intro n hz
    have hcz : ¬clampLine n = 0 := by
      unfold clampLine MIN_GRID_LINE MAX_GRID_LINE
      omega
    simp [GridLine.parse, expectIdentMatching, parseBody, parseLoop, stepTok, parseAfterLoop,
      GridLine.auto, GridLine.is_auto, hz, hcz]
  · intro ts g rest h
    exact (GridLine.parse_ok_props h).1.2

/-- Witness for `c3_clamping` at the concrete non-zero integer `7`. -/
theorem c3_clamping_witness :
    GridLine.parse [Token.num 7] =
      Except.ok ({ ident := "", line_num := clampLine 7, is_span := false }, []) ∧
    MIN_GRID_LINE ≤ ({ ident := "", line_num := clampLine 7, is_span := false } : GridLine).line_num ∧
    ({ ident := "", line_num := clampLine 7, is_span := false } : GridLine).line_num ≤ MAX_GRID_LINE :=
  ⟨c3_clamping.2.2.1 7 (by decide),
    c3_clamping.2.2.2 [Token.num 7] _ [] (c3_clamping.2.2.1 7 (by decide))⟩

/-- C4: a bare `span`, `span 0`, and any span with a negative integer all
fail with a parse error, and no successful parse ever produces a span value
without a strictly positive integer or a non-empty identifier. -/
theorem c4_span_failures :
    GridLine.parse [Token.ident ("span")] = Except.error () ∧
    GridLine.parse [Token.ident ("span"), Token.num 0] = Except.error () ∧
    (∀ n : Int, n < 0 → ∀ ts : List Token,
      GridLine.parse (Token.ident ("span") :: Token.num n :: ts) = Except.error ()) ∧
    (∀ (ts : List Token) (g : GridLine) (rest : List Token),
      GridLine.parse ts = Except.ok (g, rest) → g.is_span = true →
      0 < g.line_num ∨ (g.line_num = 0 ∧ g.ident ≠ "")) := by
  refine ⟨by rfl, by rfl, ?_, ?_⟩
  · intro n hneg ts
    have hz : ¬n = 0 := by omega
    have hc1 : clampLine n ≤ 0 := by
      unfold clampLine MIN_GRID_LINE MAX_GRID_LINE
      omega
    have hc2 : ¬clampLine n = 0 := by
      unfold clampLine MIN_GRID_LINE MAX_GRID_LINE
      omega
    cases ts with
    | nil =>
      simp [GridLine.parse, expectIdentMatching, parseBody, parseLoop, stepTok,
        parseAfterLoop, GridLine.auto, GridLine.is_auto, hz, hc1, hc2,
        show asciiLower ("span") = "span" by rfl]
    | cons t r =>
      cases t with
      | ident s =>
        by_cases hsp : asciiLower s = "span"
        · simp [GridLine.parse, expectIdentMatching, parseBody, parseLoop, stepTok,
            parseAfterLoop, GridLine.auto, GridLine.is_auto, hz, hc1, hc2, hsp,
            show asciiLower ("span") = "span" by rfl]
        · by_cases hau : asciiLower s = "auto"
          · simp [GridLine.parse, expectIdentMatching, parseBody, parseLoop, stepTok,
              parseAfterLoop, GridLine.auto, GridLine.is_auto, hz, hc1, hc2, hsp, hau,
              show asciiLower ("span") = "span" by rfl]
          · simp [GridLine.parse, expectIdentMatching, parseBody, parseLoop, stepTok,
              parseAfterLoop, GridLine.auto, GridLine.is_auto, hz, hc1, hc2, hsp, hau,
              show asciiLower ("span") = "span" by rfl]
      | num m =>
        simp [GridLine.parse, expectIdentMatching, parseBody, parseLoop, stepTok,
          parseAfterLoop, GridLine.auto, GridLine.is_auto, hz, hc1, hc2,
          show asciiLower ("span") = "span" by rfl]
      | other =>
        simp [GridLine.parse, expectIdentMatching, parseBody, parseLoop, stepTok,
          parseAfterLoop, GridLine.auto, GridLine.is_auto, hz, hc1, hc2,
          show asciiLower ("span") = "span" by rfl]
  · intro ts g rest h hsp
    exact (GridLine.parse_ok_props h).2.2 hsp

/-- Witness for `c4_span_failures` at the concrete negative span `span -5`. -/
theorem c4_span_failures_witness :
    GridLine.parse [Token.ident ("span"), Token.num (-5)] = Except.error () ∧
    (0 < ({ ident := "x", line_num := 0, is_span := true } : GridLine).line_num ∨
      (({ ident := "x", line_num := 0, is_span := true } : GridLine).line_num = 0 ∧
        ({ ident := "x", line_num := 0, is_span := true } : GridLine).ident ≠ "")) :=
  ⟨c4_span_failures.2.2.1 (-5) (by decide) [],
    c4_span_failures.2.2.2 [Token.ident ("span"), Token.ident ("x")] _ [] (by rfl) (by rfl)⟩

/-- Joining a list of strings with single spaces (used to state the
serialization claims independently of the serializer's own append
structure). -/
def spaceJoin : List String → String
  | [] => ""
  | [s] => s
  | s :: s2 :: rest => s ++ " " ++ spaceJoin (s2 :: rest)

/-- C7: serialization of a span grid line prints `span`, then a space and
the integer unless the integer is zero or is exactly one while an
identifier is present, then a space and the identifier if non-empty; a
non-span, non-auto, non-ident-only line prints the integer, then a space
and the identifier if present. -/
theorem c7_gridline_serialization (g : GridLine) :
    (g.is_span = true →
      g.to_css = spaceJoin (["span"]
        ++ (if g.line_num = 0 ∨ (g.line_num = 1 ∧ g.ident ≠ "") then []
            else [toString g.line_num])
        ++ (if g.ident = "" then [] else [g.ident]))) ∧
    (g.is_span = false → g.is_auto = false → g.is_ident_only = false →
      g.to_css = spaceJoin ([toString g.line_num]
        ++ (if g.ident = "" then [] else [g.ident]))) := by
  constructor
  · intro hsp
    have hna : g.is_auto = false := by
      simp [GridLine.is_auto, hsp]
    have hni : g.is_ident_only = false := by
      simp [GridLine.is_ident_only, hsp]
    rw [GridLine.to_css]
    by_cases hz : g.line_num = 0 <;> by_cases ho : g.line_num = 1 <;>
      by_cases hid : g.ident = "" <;>
      simp_all [spaceJoin, ← String.append_assoc]
  · intro hsp hna hni
    rw [GridLine.to_css]
    by_cases hid : g.ident = "" <;> simp_all [spaceJoin, ← String.append_assoc]

/-- Witness for `c7_gridline_serialization` at `span 2 foo` and `-3 bar`. -/
theorem c7_gridline_serialization_witness :
    ({ ident := "foo", line_num := 2, is_span := true } : GridLine).to_css =
      spaceJoin (["span"]
        ++ (if ({ ident := "foo", line_num := 2, is_span := true } : GridLine).line_num = 0 ∨
              (({ ident := "foo", line_num := 2, is_span := true } : GridLine).line_num = 1 ∧
                ({ ident := "foo", line_num := 2, is_span := true } : GridLine).ident ≠ "") then []
            else [toString ({ ident := "foo", line_num := 2, is_span := true } : GridLine).line_num])
        ++ (if ({ ident := "foo", line_num := 2, is_span := true } : GridLine).ident = "" then []
            else [({ ident := "foo", line_num := 2, is_span := true } : GridLine).ident])) ∧
    ({ ident := "bar", line_num := -3, is_span := false } : GridLine).to_css =
      spaceJoin ([toString ({ ident := "bar", line_num := -3, is_span := false } : GridLine).line_num]
        ++ (if ({ ident := "bar", line_num := -3, is_span := false } : GridLine).ident = "" then []
            else [({ ident := "bar", line_num := -3, is_span := false } : GridLine).ident])) :=
  ⟨(c7_gridline_serialization { ident := "foo", line_num := 2, is_span := true }).1 (by rfl),
    (c7_gridline_serialization { ident := "bar", line_num := -3, is_span := false }).2
      (by rfl) (by rfl) (by rfl)⟩

/-- Enum `GenericTrackBreadth<L>` from grid.rs.  `L` is the abstract
length-percentage representation; `F` abstracts `CSSFloat`, the payload of
the `fr` variant (no arithmetic is ever performed on it by this code, only
structural matching and printing). -/
inductive TrackBreadth (L F : Type) where
  | Breadth (v : L)
  | Fr (v : F)
  | Auto
  | MinContent
  | MaxContent
  deriving DecidableEq, Repr

/-- Predicate `TrackBreadth::is_fixed`: true exactly on the `Breadth`
(length-percentage) variant. -/
def TrackBreadth.is_fixed {L F : Type} : TrackBreadth L F → Bool
  | TrackBreadth.Breadth _ => true
  | _ => false

/-- The derived `ToCss` of `TrackBreadth` (grid.rs derives it with
`#[css(dimension)]` on `Fr`): `Breadth` delegates to `L`, `Fr` prints the
number followed by the `fr` unit, keyword variants print their kebab-case
names.  `lcss`/`fcss` render the abstract payloads. -/
def TrackBreadth.to_css {L F : Type} (lcss : L → String) (fcss : F → String) :
    TrackBreadth L F → String
  | TrackBreadth.Breadth v => lcss v
  | TrackBreadth.Fr v => fcss v ++ "fr"
  | TrackBreadth.Auto => "auto"
  | TrackBreadth.MinContent => "min-content"
  | TrackBreadth.MaxContent => "max-content"

/-- Enum `GenericTrackSize<L>` from grid.rs. -/
inductive TrackSize (L F : Type) where
  | Breadth (b : TrackBreadth L F)
  | Minmax (mn mx : TrackBreadth L F)
  | FitContent (b : TrackBreadth L F)
  deriving DecidableEq, Repr

/-- Predicate `TrackSize::is_fixed`. -/
def TrackSize.is_fixed {L F : Type} : TrackSize L F → Bool
  | TrackSize.Breadth b => b.is_fixed
  | TrackSize.Minmax b1 b2 =>
    if b1.is_fixed then true
    else
      match b1 with
      | TrackBreadth.Fr _ => false
      | _ => b2.is_fixed
  | TrackSize.FitContent _ => false

/-- Function `<ToCss for TrackSize>::to_css`: `minmax(auto, <fr>)` collapses to the
bare `<fr>` serialization; every other `minmax` prints in full; and
`fit-content` wraps its argument. -/
def TrackSize.to_css {L F : Type} (lcss : L → String) (fcss : F → String) :
    TrackSize L F → String
  | TrackSize.Breadth b => b.to_css lcss fcss
  | TrackSize.Minmax mn mx =>
    match mn, mx with
    | TrackBreadth.Auto, TrackBreadth.Fr f =>
      TrackBreadth.to_css lcss fcss (TrackBreadth.Fr f)
    | mn, mx =>
      "minmax(" ++ mn.to_css lcss fcss ++ ", " ++ mx.to_css lcss fcss ++ ")"
  | TrackSize.FitContent lp => "fit-content(" ++ lp.to_css lcss fcss ++ ")"

/-- C5: for every flex value `f`, `minmax(auto, f fr)` serializes exactly
as the bare `f fr` track breadth; a `minmax` whose first argument is not
`auto`, or whose second argument is not an `fr` value, serializes in the
full `minmax(min, max)` form. -/
theorem c5_minmax_serialization {L F : Type} (lcss : L → String) (fcss : F → String) :
    (∀ f : F,
      TrackSize.to_css lcss fcss
          (TrackSize.Minmax TrackBreadth.Auto (TrackBreadth.Fr f)) =
        TrackBreadth.to_css lcss fcss (TrackBreadth.Fr f)) ∧
    (∀ mn mx : TrackBreadth L F,
      ¬(mn = TrackBreadth.Auto ∧ ∃ f : F, mx = TrackBreadth.Fr f) →
      TrackSize.to_css lcss fcss (TrackSize.Minmax mn mx) =
        "minmax(" ++ mn.to_css lcss fcss ++ ", " ++ mx.to_css lcss fcss ++ ")") := by
  constructor
  · intro f
    rfl
  · intro mn mx hne
    cases mn <;> cases mx <;> first
      | rfl
      | exact absurd ⟨rfl, _, rfl⟩ hne

/-- Witness for `c5_minmax_serialization` at `minmax(10px, 2fr)` over the
string instantiation of the abstract payloads. -/
theorem c5_minmax_serialization_witness :
    TrackSize.to_css (fun l : String => l) (fun f : String => f)
        (TrackSize.Minmax (TrackBreadth.Breadth ("10px")) (TrackBreadth.Fr ("2"))) =
      "minmax(" ++ TrackBreadth.to_css (fun l : String => l) (fun f : String => f)
          (TrackBreadth.Breadth ("10px")) ++ ", " ++
        TrackBreadth.to_css (fun l : String => l) (fun f : String => f)
          (TrackBreadth.Fr ("2")) ++ ")" :=
  (c5_minmax_serialization (fun l : String => l) (fun f : String => f)).2
    (TrackBreadth.Breadth ("10px")) (TrackBreadth.Fr ("2"))
    (by intro hc; exact absurd hc.1 (by decide))

/-- C6: `is_fixed` of `Breadth b` equals `TrackBreadth::is_fixed` of `b`
(true exactly on the length-percentage variant); `FitContent` is never
fixed; `Minmax(a, b)` is fixed when `a` is fixed, never fixed when `a` is
an `fr` value, and otherwise exactly when `b` is fixed. -/
theorem c6_is_fixed {L F : Type} :
    (∀ b : TrackBreadth L F,
      (TrackSize.Breadth b).is_fixed = b.is_fixed ∧
      (b.is_fixed = true ↔ ∃ v : L, b = TrackBreadth.Breadth v)) ∧
    (∀ b : TrackBreadth L F, (TrackSize.FitContent b).is_fixed = false) ∧
    (∀ a b : TrackBreadth L F,
      (a.is_fixed = true → (TrackSize.Minmax a b).is_fixed = true) ∧
      (∀ f : F, a = TrackBreadth.Fr f → (TrackSize.Minmax a b).is_fixed = false) ∧
      (a.is_fixed = false → (∀ f : F, a ≠ TrackBreadth.Fr f) →
        (TrackSize.Minmax a b).is_fixed = b.is_fixed)) := by
  refine ⟨fun b => ⟨rfl, ?_⟩, fun b => rfl, fun a b => ⟨?_, ?_, ?_⟩⟩
  · cases b <;> simp [TrackBreadth.is_fixed]
  · intro hf
    simp [TrackSize.is_fixed, hf]
  · intro f hf
    subst hf
    rfl
  · intro hnf hnfr
    cases a with
    | Breadth v => simp [TrackBreadth.is_fixed] at hnf
    | Fr f => exact absurd rfl (hnfr f)
    | Auto => simp [TrackSize.is_fixed, TrackBreadth.is_fixed]
    | MinContent => simp [TrackSize.is_fixed, TrackBreadth.is_fixed]
    | MaxContent => simp [TrackSize.is_fixed, TrackBreadth.is_fixed]

/-- Witness for `c6_is_fixed`: `minmax(auto, 10px)` is fixed via its second
argument, `minmax(2fr, 10px)` is not, over the string instantiation. -/
theorem c6_is_fixed_witness :
    (TrackSize.Minmax (TrackBreadth.Auto : TrackBreadth String String)
        (TrackBreadth.Breadth ("10px"))).is_fixed =
      (TrackBreadth.Breadth ("10px") : TrackBreadth String String).is_fixed ∧
    (TrackSize.Minmax (TrackBreadth.Fr ("2") : TrackBreadth String String)
        (TrackBreadth.Breadth ("10px"))).is_fixed = false :=
  ⟨((c6_is_fixed.2.2 TrackBreadth.Auto (TrackBreadth.Breadth ("10px"))).2.2
      (by decide) (fun f => by simp)),
    ((c6_is_fixed.2.2 (TrackBreadth.Fr ("2")) (TrackBreadth.Breadth ("10px"))).2.1
      "2" rfl)⟩

/-- Enum `RepeatCount<Integer>` from grid.rs. -/
inductive RepeatCount (I : Type) where
  | Number (n : I)
  | AutoFill
  | AutoFit
  deriving DecidableEq, Repr

/-- Function `<Parse for RepeatCount>::parse` over a token stream, at
`I = specified::Integer`.  Modelled from the spec for the callees outside
the studied file: `specified::Integer::parse_positive` consumes an integer
token of value at least 1 (rolling back otherwise), and
`try_match_ident_ignore_ascii_case!` consumes an identifier token compared
ASCII-case-insensitively.  A too-large integer is capped to
`MAX_GRID_LINE`, never rejected. -/
def RepeatCount.parse (ts : List Token) : Except Unit (RepeatCount Int × List Token) :=
  match ts with
  | Token.num n :: rest =>
    if 1 ≤ n then
      Except.ok
        (RepeatCount.Number (if MAX_GRID_LINE < n then MAX_GRID_LINE else n), rest)
    else Except.error ()
  | Token.ident s :: rest =>
    if asciiLower s = "auto-fill" then Except.ok (RepeatCount.AutoFill, rest)
    else if asciiLower s = "auto-fit" then Except.ok (RepeatCount.AutoFit, rest)
    else Except.error ()
  | _ => Except.error ()

/-- The derived `ToCss` of `RepeatCount`: the integer, or the keyword. -/
def RepeatCount.to_css {I : Type} (icss : I → String) : RepeatCount I → String
  | RepeatCount.Number n => icss n
  | RepeatCount.AutoFill => "auto-fill"
  | RepeatCount.AutoFit => "auto-fit"

/-- C8: `RepeatCount::parse` accepts a strictly positive integer, capping
it at 10000 instead of rejecting it; accepts the case-insensitive keywords
`auto-fill` and `auto-fit`; and fails on every other token. -/
theorem c8_repeatcount_parse :
    (∀ (n : Int) (rest : List Token), 1 ≤ n →
      RepeatCount.parse (Token.num n :: rest) =
        Except.ok (RepeatCount.Number (min n MAX_GRID_LINE), rest)) ∧
    (∀ (n : Int) (rest : List Token), n < 1 →
      RepeatCount.parse (Token.num n :: rest) = Except.error ()) ∧
    (∀ (s : String) (rest : List Token), asciiLower s = "auto-fill" →
      RepeatCount.parse (Token.ident s :: rest) = Except.ok (RepeatCount.AutoFill, rest)) ∧
    (∀ (s : String) (rest : List Token), asciiLower s = "auto-fit" →
      RepeatCount.parse (Token.ident s :: rest) = Except.ok (RepeatCount.AutoFit, rest)) ∧
    (∀ (s : String) (rest : List Token),
      asciiLower s ≠ "auto-fill" → asciiLower s ≠ "auto-fit" →
      RepeatCount.parse (Token.ident s :: rest) = Except.error ()) ∧
    (∀ rest : List Token, RepeatCount.parse (Token.other :: rest) = Except.error ()) ∧
    RepeatCount.parse [] = Except.error () := by
  refine ⟨?_, ?_, ?_, ?_, ?_, fun rest => rfl, rfl⟩
  · intro n rest h
    have : (if MAX_GRID_LINE < n then MAX_GRID_LINE else n) = min n MAX_GRID_LINE := by
      unfold MAX_GRID_LINE
      split_ifs <;> omega
    simp [RepeatCount.parse, h, this]
  · intro n rest h
    have hn : ¬1 ≤ n := by omega
    simp [RepeatCount.parse, hn]
  · intro s rest h
    simp [RepeatCount.parse, h]
  · intro s rest h
    have hne : ¬asciiLower s = "auto-fill" := by
      intro hc
      rw [hc] at h
      exact absurd h (by decide)
    simp [RepeatCount.parse, h, hne]
  · intro s rest h1 h2
    simp [RepeatCount.parse, h1, h2]

/-- Witness for `c8_repeatcount_parse`: `99999` is capped to 10000,
`AUTO-FILL` is accepted case-insensitively, `0` and `foo` are rejected. -/
theorem c8_repeatcount_parse_witness :
    RepeatCount.parse [Token.num 99999] =
      Except.ok (RepeatCount.Number (min 99999 MAX_GRID_LINE), []) ∧
    RepeatCount.parse [Token.ident ("AUTO-FILL")] =
      Except.ok (RepeatCount.AutoFill, []) ∧
    RepeatCount.parse [Token.num 0] = Except.error () ∧
    RepeatCount.parse [Token.ident ("foo")] = Except.error () :=
  ⟨c8_repeatcount_parse.1 99999 [] (by decide),
    c8_repeatcount_parse.2.2.1 ("AUTO-FILL") [] (by decide),
    c8_repeatcount_parse.2.1 0 [] (by decide),
    c8_repeatcount_parse.2.2.2.2.1 ("foo") [] (by decide) (by decide)⟩

/-- Concatenation of a list of strings (the output of a sequence of
`write_str` calls). -/
def strConcat : List String → String
  | [] => ""
  | s :: rest => s ++ strConcat rest

/-- Function `concat_serialize_idents` from grid.rs: on a non-empty slice, write the
given opening text, the first ident, then each further ident preceded by
the separator, then the closing text; on an empty slice, write nothing. -/
def concat_serialize_idents (pre suf : String) (slice : List String) (sep : String) :
    String :=
  match slice with
  | [] => ""
  | first :: rest => pre ++ first ++ strConcat (rest.map (fun x => sep ++ x)) ++ suf

/-- Structure `GenericTrackRepeat<L, I>` from grid.rs (`CustomIdent` modelled as
`String`). -/
structure TrackRepeat (L F I : Type) where
  count : RepeatCount I
  line_names : List (List String)
  track_sizes : List (TrackSize L F)

/-- The enumerated loop body of `<ToCss for TrackRepeat>::to_css`: at index
`i`, a separating space for `i > 0`, the name-set (empty sets print
nothing), and the track size. -/
def trackRepeatBody {L F : Type} (render : TrackSize L F → String) :
    Nat → List (TrackSize L F × List String) → String
  | _, [] => ""
  | i, (size, names) :: rest =>
    (if 0 < i then " " else "") ++ concat_serialize_idents ("[") ("] ") names (" ")
      ++ render size ++ trackRepeatBody render (i + 1) rest

/-- Function `<ToCss for TrackRepeat>::to_css`: `repeat(count, ...)` with the sizes
zipped against the leading name-sets, followed by the first name-set left
unconsumed by the zip, if any (rendered with a leading space and no
trailing one). -/
def TrackRepeat.to_css {L F I : Type} (lcss : L → String) (fcss : F → String)
    (icss : I → String) (r : TrackRepeat L F I) : String :=
  "repeat(" ++ RepeatCount.to_css icss r.count ++ ", "
    ++ trackRepeatBody (TrackSize.to_css lcss fcss) 0 (r.track_sizes.zip r.line_names)
    ++ (match (r.line_names.drop (r.track_sizes.zip r.line_names).length).head? with
        | some last => concat_serialize_idents (" [") ("]") last (" ")
        | none => "")
    ++ ")"

/-- Structure `GenericNameRepeat<I>` from grid.rs. -/
structure NameRepeat (I : Type) where
  count : RepeatCount I
  line_names : List (List String)

/-- Function `<ToCss for NameRepeat>::to_css`: `repeat(count,` then every name-set
with a leading space — an empty set printed literally as ` []`, which
`concat_serialize_idents` would skip — then `)`. -/
def NameRepeat.to_css {I : Type} (icss : I → String) (r : NameRepeat I) : String :=
  "repeat(" ++ RepeatCount.to_css icss r.count ++ ","
    ++ strConcat (r.line_names.map (fun names =>
        if names.isEmpty then " []"
        else concat_serialize_idents (" [") ("]") names (" ")))
    ++ ")"

theorem spaceJoin_eq_strConcat (a : String) (t : List String) :
    spaceJoin (a :: t) = a ++ strConcat (t.map (fun x => " " ++ x)) := by
  induction t generalizing a with
  | nil => simp [spaceJoin, strConcat]
  | cons b t2 ih =>
    rw [spaceJoin, ih b]
    simp [strConcat, ← String.append_assoc]

theorem zip_replicate_nil {α : Type} (l : List α) :
    ∀ k : Nat, l.length ≤ k →
      l.zip (List.replicate k ([] : List String)) = l.map (fun s => (s, [])) := by
  induction l with
  | nil => intro k _; simp
  | cons a t ih =>
    intro k hk
    cases k with
    | zero => simp at hk
    | succ k2 =>
      simp only [List.replicate, List.zip_cons_cons, List.map]
      rw [ih k2 (by simpa using hk)]

theorem trackRepeatBody_empty_names {L F : Type} (render : TrackSize L F → String)
    (sizes : List (TrackSize L F)) :
    ∀ i : Nat,
      trackRepeatBody render (i + 1) (sizes.map (fun s => (s, []))) =
        strConcat (sizes.map (fun s => " " ++ render s)) := by
  induction sizes with
  | nil => intro i; rfl
  | cons s t ih =>
    intro i
    rw [List.map, trackRepeatBody, ih (i + 1)]
    simp [concat_serialize_idents, strConcat, ← String.append_assoc]

/-- C9: the empty name-set rendering asymmetry.  `concat_serialize_idents`
— the helper `TrackRepeat` uses for every name-set position — prints
nothing for an empty set, so a `TrackRepeat` whose name-sets are all empty
serializes as `repeat(count, size size ...)` with no `[]` anywhere; while
`NameRepeat` prints every name-set bracketed with a leading space, an
empty set printing literally as ` []`. -/
theorem c9_name_set_rendering :
    (∀ pre suf sep : String, concat_serialize_idents pre suf [] sep = "") ∧
    (∀ (L F I : Type) (lcss : L → String) (fcss : F → String) (icss : I → String)
      (c : RepeatCount I) (sizes : List (TrackSize L F)),
      TrackRepeat.to_css lcss fcss icss
          { count := c,
            line_names := List.replicate (sizes.length + 1) [],
            track_sizes := sizes } =
        "repeat(" ++ RepeatCount.to_css icss c ++ ", "
          ++ spaceJoin (sizes.map (TrackSize.to_css lcss fcss)) ++ ")") ∧
    (∀ (I : Type) (icss : I → String) (c : RepeatCount I)
      (nss : List (List String)),
      NameRepeat.to_css icss { count := c, line_names := nss } =
        "repeat(" ++ RepeatCount.to_css icss c ++ ","
          ++ strConcat (nss.map (fun ns => " [" ++ spaceJoin ns ++ "]")) ++ ")") := by
  refine ⟨fun pre suf sep => rfl, ?_, ?_⟩
  · intro L F I lcss fcss icss c sizes
    rw [TrackRepeat.to_css]
    simp only
    rw [zip_replicate_nil sizes (sizes.length + 1) (by omega)]
    have hlen : (sizes.map (fun s => (s, ([] : List String)))).length = sizes.length := by
      simp
    rw [hlen, List.drop_replicate]
    simp only [Nat.add_sub_cancel_left, List.replicate, List.head?]
    cases sizes with
    | nil => simp [trackRepeatBody, concat_serialize_idents, spaceJoin]
    | cons s t =>
      rw [List.map, trackRepeatBody, trackRepeatBody_empty_names _ t 0]
      rw [List.map, spaceJoin_eq_strConcat, List.map_map]
      simp [concat_serialize_idents, ← String.append_assoc]
      rfl
  · intro I icss c nss
    rw [NameRepeat.to_css]
    simp only
    congr 2
    congr 1
    apply List.map_congr_left
    intro ns _
    cases ns with
    | nil => rfl
    | cons a t =>
      rw [spaceJoin_eq_strConcat]
      simp [concat_serialize_idents, ← String.append_assoc]

/-- Enum `GenericTrackListValue<LengthPercentage, Integer>` from grid.rs. -/
inductive TrackListValue (L F I : Type) where
  | TrackSize (t : TrackSize L F)
  | TrackRepeat (t : TrackRepeat L F I)

/-- The derived `ToCss` of `TrackListValue`: delegate to the payload. -/
def TrackListValue.to_css {L F I : Type} (lcss : L → String) (fcss : F → String)
    (icss : I → String) : TrackListValue L F I → String
  | TrackListValue.TrackSize t => t.to_css lcss fcss
  | TrackListValue.TrackRepeat t => t.to_css lcss fcss icss

/-- Structure `GenericTrackList<LengthPercentage, Integer>` from grid.rs.
`auto_repeat_index` equal to `values.length` (out of bounds) encodes the
absence of an auto-repeat. -/
structure TrackList (L F I : Type) where
  auto_repeat_index : Nat
  values : List (TrackListValue L F I)
  line_names : List (List String)

/-- The `for idx in 0..` loop of `<ToCss for TrackList>::to_css`.  Each
iteration takes the next name-set with `.unwrap()`; `none` models the
panic of that unwrap on an exhausted iterator.  After printing a value, a
separating space follows when another value remains, when the next
name-set is non-empty, or when the next position is the auto-repeat
index. -/
def trackListLoop {L F I : Type} (render : TrackListValue L F I → String)
    (arIdx : Nat) : Nat → List (List String) → List (TrackListValue L F I) → Option String
  | _, [], _ => none
  | _, names :: _, [] => some (concat_serialize_idents ("[") ("]") names (" "))
  | idx, names :: nrest, v :: vrest =>
    match trackListLoop render arIdx (idx + 1) nrest vrest with
    | none => none
    | some tail =>
      some (concat_serialize_idents ("[") ("]") names (" ")
        ++ (if names.isEmpty then "" else " ")
        ++ render v
        ++ (if vrest.isEmpty = false ∨
              ((nrest.head?.map (fun nx => !nx.isEmpty)).getD false) = true ∨
              idx + 1 = arIdx
            then " " else "")
        ++ tail)

/-- Function `<ToCss for TrackList>::to_css`: `none` models a panic of the in-loop
unwrap. -/
def TrackList.to_css {L F I : Type} (lcss : L → String) (fcss : F → String)
    (icss : I → String) (tl : TrackList L F I) : Option String :=
  trackListLoop (TrackListValue.to_css lcss fcss icss) tl.auto_repeat_index 0
    tl.line_names tl.values

theorem trackListLoop_isSome {L F I : Type} (render : TrackListValue L F I → String)
    (arIdx : Nat) :
    ∀ (vals : List (TrackListValue L F I)) (names : List (List String)) (idx : Nat),
      names.length = vals.length + 1 →
      (trackListLoop render arIdx idx names vals).isSome = true := by
  intro vals
  induction vals with
  | nil =>
    intro names idx h
    cases names with
    | nil => simp at h
    | cons n0 nrest => rfl
  | cons v vrest ih =>
    intro names idx h
    cases names with
    | nil => simp at h
    | cons n0 nrest =>
      have h2 : nrest.length = vrest.length + 1 := by
        simpa using h
      have := ih nrest (idx + 1) h2
      rw [trackListLoop]
      cases hlp : trackListLoop render arIdx (idx + 1) nrest vrest with
      | none => rw [hlp] at this; simp at this
      | some tail => rfl

/-- C10: under the documented invariant
`line_names.len() == values.len() + 1`, `TrackList` serialization is
total: the in-loop unwrap of the line-name iterator always succeeds, so
`to_css` returns a value and never panics. -/
theorem c10_tracklist_total {L F I : Type} (lcss : L → String) (fcss : F → String)
    (icss : I → String) (tl : TrackList L F I)
    (h : tl.line_names.length = tl.values.length + 1) :
    (TrackList.to_css lcss fcss icss tl).isSome = true :=
  trackListLoop_isSome (TrackListValue.to_css lcss fcss icss) tl.auto_repeat_index
    tl.values tl.line_names 0 h

/-- Witness for `c10_tracklist_total` at a concrete two-track list. -/
theorem c10_tracklist_total_witness :
    (TrackList.to_css (fun l : String => l) (fun f : String => f)
        (fun n : Int => toString n)
        { auto_repeat_index := 2,
          values := [TrackListValue.TrackSize (TrackSize.Breadth TrackBreadth.Auto),
            TrackListValue.TrackSize (TrackSize.Breadth (TrackBreadth.Fr ("1")))],
          line_names := [["a"], [], ["b"]] }).isSome = true :=
  c10_tracklist_total (fun l : String => l) (fun f : String => f)
    (fun n : Int => toString n)
    { auto_repeat_index := 2,
      values := [TrackListValue.TrackSize (TrackSize.Breadth TrackBreadth.Auto),
        TrackListValue.TrackSize (TrackSize.Breadth (TrackBreadth.Fr ("1")))],
      line_names := [["a"], [], ["b"]] }
    (by rfl)
